import Mathlib

/-!
Shallow embedding of the order-processing repository’s reliable event
delivery layer, and proofs of the spec’s claims about it.

Source files embedded:
- `src/shared/events/schemas.py` (event envelope codec)
- `src/shared/events/consumer.py` (`RedisStreamConsumer._process_with_retry`
  and the per-entry dispatch step of `RedisStreamConsumer.consume`)
- `src/shared/events/publisher.py` (`RedisStreamPublisher.publish`)
- `src/services/notification-service/notifications/event_handlers.py`
- `src/services/order-service/orders/event_handlers.py`

Python dictionaries and JSON payloads are modelled by the `Json` type
below; exceptions raised by the embedded code are modelled by `Option`
results; external effects (database rows, emails sent, broker appends)
are modelled by explicit state records threaded through the functions.
-/

/-- A Python/JSON value, as passed around by the handlers
(`dict` / `json.loads` output).  `int` and `num` are kept apart because
Python keeps `int` and `float` apart and the code never converts
between them; `num` carries a rational since the code does no float
arithmetic, only moves the values. -/
inductive Json where
  | null : Json
  | bool : Bool → Json
  | int : Int → Json
  | num : Rat → Json
  | str : String → Json
  | arr : List Json → Json
  | obj : List (String × Json) → Json
deriving Repr, BEq

namespace Json

/-- Python `d.get(key)` on a dict: `none` when the key is absent or the
value is not an object. -/
def get : Json → String → Option Json
  | .obj kvs, key => kvs.lookup key
  | _, _ => none

/-- Python `d[key]` on a dict, same lookup; the caller treats `none` as
a raised `KeyError`. -/
def getKey (j : Json) (key : String) : Option Json := j.get key

def asStr : Json → Option String
  | .str s => some s
  | _ => none

def asInt : Json → Option Int
  | .int n => some n
  | _ => none

def asNum : Json → Option Rat
  | .num q => some q
  | _ => none

def asArr : Json → Option (List Json)
  | .arr xs => some xs
  | _ => none

/-- Python `None`-or-string, as stored for an optional field
(`ProductItem.name`). -/
def asOptStr : Json → Option (Option String)
  | .null => some none
  | .str s => some (some s)
  | _ => none

end Json

/-- Reads `d[key]` expected to be a string (the dataclass fields the code
reads are strings; a missing key is a raised `KeyError` → `none`). -/
def getStr (d : Json) (key : String) : Option String :=
  (d.getKey key).bind Json.asStr

/-- Reads `d[key]` expected to be a float. -/
def getNum (d : Json) (key : String) : Option Rat :=
  (d.getKey key).bind Json.asNum

/-- Reads `d[key]` expected to be an int. -/
def getInt (d : Json) (key : String) : Option Int :=
  (d.getKey key).bind Json.asInt

/-- Models `data.get("version", "1.0")` as used by every `from_dict`. -/
def getVersion (d : Json) : Option String :=
  match d.get "version" with
  | some v => v.asStr
  | none => some "1.0"

/-- Python’s list comprehension over a fallible element builder: the
whole comprehension raises iff some element raises. -/
def mapOption (f : α → Option β) : List α → Option (List β)
  | [] => some []
  | x :: xs => (f x).bind fun y => (mapOption f xs).bind fun ys => some (y :: ys)

/-! ## `src/shared/events/schemas.py` -/

/-- Value of `EventType.ORDER_CREATED`. -/
def orderCreatedTag : String := "OrderCreated"

/-- Value of `EventType.ORDER_STATUS_UPDATED`. -/
def orderStatusUpdatedTag : String := "OrderStatusUpdated"

/-- Dataclass `ProductItem`: `product_id`, `quantity`, `price`,
`name: Optional[str] = None`. -/
structure ProductItem where
  product_id : String
  quantity : Int
  price : Rat
  name : Option String
deriving Repr, DecidableEq

/-- The dict built per product inside `OrderCreatedEvent.__post_init__`. -/
def productToDict (p : ProductItem) : Json :=
  .obj [("product_id", .str p.product_id),
        ("quantity", .int p.quantity),
        ("price", .num p.price),
        ("name", match p.name with | some s => .str s | none => .null)]

/-- One product entry of `OrderCreatedEvent.from_dict`:
`ProductItem(product_id=p["product_id"], quantity=p["quantity"],
price=p["price"], name=p.get("name"))`. -/
def productFromDict (j : Json) : Option ProductItem := do
  let pid ← getStr j "product_id"
  let qty ← getInt j "quantity"
  let price ← getNum j "price"
  let name ← match j.get "name" with
    | some v => v.asOptStr
    | none => some none
  pure ⟨pid, qty, price, name⟩

/-- The envelope fields every `from_dict` reads from the outer dict:
`event_type` (read for presence; its value is then overwritten by
`__post_init__`, see `OrderCreatedEvent`), `event_id`, `timestamp`, and
`version` via `data.get("version", "1.0")`. -/
structure EnvelopeFields where
  event_id : String
  timestamp : String
  version : String
deriving Repr, DecidableEq

/-- Reads the envelope part shared by both `from_dict` methods. -/
def envelopeFromDict (d : Json) : Option EnvelopeFields := do
  let _ ← d.getKey "event_type"
  let eid ← getStr d "event_id"
  let ts ← getStr d "timestamp"
  let ver ← getVersion d
  pure ⟨eid, ts, ver⟩

/-- Dataclass `OrderCreatedEvent` after `__post_init__` has run: `event_type` is
forced to `"OrderCreated"` and `data` is recomputed from the typed
fields, so only the independent fields are stored; `to_dict` below
materialises the forced `event_type` and the derived `data` exactly as
the Python object carries them. -/
structure OrderCreatedEvent where
  event_id : String
  timestamp : String
  version : String
  order_id : String
  user_id : String
  products : List ProductItem
  total_amount : Rat
  shipping_address : String
  user_email : String
deriving Repr, DecidableEq

namespace OrderCreatedEvent

/-- The `data` dict assigned by `OrderCreatedEvent.__post_init__`. -/
def dataDict (e : OrderCreatedEvent) : Json :=
  .obj [("order_id", .str e.order_id),
        ("user_id", .str e.user_id),
        ("products", .arr (e.products.map productToDict)),
        ("total_amount", .num e.total_amount),
        ("shipping_address", .str e.shipping_address),
        ("user_email", .str e.user_email)]

/-- Method `BaseEvent.to_dict` on an `OrderCreatedEvent` (the five envelope
keys; `self.event_type` and `self.data` were set by `__post_init__`). -/
def to_dict (e : OrderCreatedEvent) : Json :=
  .obj [("event_type", .str orderCreatedTag),
        ("event_id", .str e.event_id),
        ("timestamp", .str e.timestamp),
        ("version", .str e.version),
        ("data", e.dataDict)]

/-- The `data["data"]` part of `OrderCreatedEvent.from_dict`. -/
def payloadFromDict (eventData : Json) (env : EnvelopeFields) :
    Option OrderCreatedEvent := do
  let oid ← getStr eventData "order_id"
  let uid ← getStr eventData "user_id"
  let prodJs ← (eventData.getKey "products").bind Json.asArr
  let prods ← mapOption productFromDict prodJs
  let total ← getNum eventData "total_amount"
  let addr ← getStr eventData "shipping_address"
  let email ← getStr eventData "user_email"
  pure ⟨env.event_id, env.timestamp, env.version, oid, uid, prods, total, addr, email⟩

/-- Classmethod `OrderCreatedEvent.from_dict` (`event_data = data["data"]`, then the
constructor call; a missing key is a raised `KeyError` → `none`). -/
def from_dict (d : Json) : Option OrderCreatedEvent := do
  let eventData ← d.getKey "data"
  let env ← envelopeFromDict d
  payloadFromDict eventData env

end OrderCreatedEvent

/-- Dataclass `OrderStatusUpdatedEvent` after `__post_init__`, same convention as
`OrderCreatedEvent`. -/
structure OrderStatusUpdatedEvent where
  event_id : String
  timestamp : String
  version : String
  order_id : String
  status : String
  previous_status : String
  updated_at : String
  user_email : String
deriving Repr, DecidableEq

namespace OrderStatusUpdatedEvent

/-- The `data` dict assigned by `OrderStatusUpdatedEvent.__post_init__`. -/
def dataDict (e : OrderStatusUpdatedEvent) : Json :=
  .obj [("order_id", .str e.order_id),
        ("status", .str e.status),
        ("previous_status", .str e.previous_status),
        ("updated_at", .str e.updated_at),
        ("user_email", .str e.user_email)]

/-- Method `BaseEvent.to_dict` on an `OrderStatusUpdatedEvent`. -/
def to_dict (e : OrderStatusUpdatedEvent) : Json :=
  .obj [("event_type", .str orderStatusUpdatedTag),
        ("event_id", .str e.event_id),
        ("timestamp", .str e.timestamp),
        ("version", .str e.version),
        ("data", e.dataDict)]

/-- The `data["data"]` part of `OrderStatusUpdatedEvent.from_dict`;
`user_email` uses `event_data.get("user_email", "")` (backward
compatible default). -/
def payloadFromDict (eventData : Json) (env : EnvelopeFields) :
    Option OrderStatusUpdatedEvent := do
  let oid ← getStr eventData "order_id"
  let status ← getStr eventData "status"
  let prev ← getStr eventData "previous_status"
  let upd ← getStr eventData "updated_at"
  let email ← match eventData.get "user_email" with
    | some v => v.asStr
    | none => some ""
  pure ⟨env.event_id, env.timestamp, env.version, oid, status, prev, upd, email⟩

/-- Classmethod `OrderStatusUpdatedEvent.from_dict`. -/
def from_dict (d : Json) : Option OrderStatusUpdatedEvent := do
  let eventData ← d.getKey "data"
  let env ← envelopeFromDict d
  payloadFromDict eventData env

end OrderStatusUpdatedEvent

/-! ## `src/shared/events/consumer.py` -/

/-- Outcome of one handler invocation inside
`RedisStreamConsumer._process_with_retry`: the handler returned `True`,
returned a falsy value, or raised an exception (caught by the
`except Exception` branch at line 83). -/
inductive AttemptOutcome where
  | ok : AttemptOutcome
  | failed : AttemptOutcome
  | raised : AttemptOutcome
deriving Repr, DecidableEq

/-- Observable trace of one `_process_with_retry` call: the returned
boolean, the number of handler invocations performed, and the
`time.sleep` durations in order. -/
structure RetryTrace where
  verdict : Bool
  attempts : Nat
  waits : List Nat
deriving Repr, DecidableEq

/-- Body of the `for attempt in range(max_retries)` loop of
`_process_with_retry`, from loop index `attempt` with `left` iterations
remaining (`left = max_retries - attempt` at every call).  The `.failed`
and `.raised` branches are kept separate because the source has two
separate branches (lines 69-82 and 83-97); `left = 0` is the loop
running out, reaching the `return False` at line 98. -/
def retryGo (handler : Nat → AttemptOutcome) (maxRetries : Nat) :
    Nat → Nat → RetryTrace
  | _, 0 => ⟨false, 0, []⟩
  | attempt, left + 1 =>
    match handler attempt with
    | .ok => ⟨true, 1, []⟩
    | .failed =>
      if attempt < maxRetries - 1 then
        let rest := retryGo handler maxRetries (attempt + 1) left
        ⟨rest.verdict, rest.attempts + 1, 2 ^ attempt :: rest.waits⟩
      else ⟨false, 1, []⟩
    | .raised =>
      if attempt < maxRetries - 1 then
        let rest := retryGo handler maxRetries (attempt + 1) left
        ⟨rest.verdict, rest.attempts + 1, 2 ^ attempt :: rest.waits⟩
      else ⟨false, 1, []⟩

/-- Method `RedisStreamConsumer._process_with_retry(handler, event,
max_retries)`.  The handler’s behaviour across attempts is modelled as
a function from the attempt index to that attempt’s outcome (the
`event` argument is fixed by the caller, see `handleEntry`). -/
def processWithRetry (handler : Nat → AttemptOutcome) (maxRetries : Nat) :
    RetryTrace :=
  retryGo handler maxRetries 0 maxRetries

/-- Replaces every `.raised` outcome by `.failed`, for comparing the
two failure branches of `_process_with_retry`. -/
def suppressRaised (handler : Nat → AttemptOutcome) : Nat → AttemptOutcome :=
  fun k => match handler k with
    | .raised => .failed
    | o => o

/-- Observable result of one iteration of the per-message loop of
`RedisStreamConsumer.consume` (lines 130-160) for a single delivered
entry. -/
structure EntryResult where
  handlerCalled : Bool
  acked : Bool
deriving Repr, DecidableEq

/-- One delivered entry’s dispatch step in `RedisStreamConsumer.consume`:
`parsed` is the result of `json.loads(fields[b"event"].decode("utf-8"))`
(`none` when that pipeline raises — missing field, bad UTF-8 or invalid
JSON); the surrounding `try`/`except` catches the raise, logs it and
does not acknowledge (lines 155-160).  On a successful parse the event
is handed to `_process_with_retry` with `max_retries=3` and `xack` is
called iff that returns `True` (lines 137-153).  The handler’s attempt
outcomes may depend on the decoded event. -/
def handleEntry (parsed : Option Json)
    (handler : Json → Nat → AttemptOutcome) : EntryResult :=
  match parsed with
  | none => ⟨false, false⟩
  | some event => ⟨true, (processWithRetry (handler event) 3).verdict⟩

/-- An entry delivered to a consumer group member stays in the group’s
pending set until `xack`; after the dispatch step it remains pending
iff the step did not acknowledge it. -/
def entryRemainsPending (r : EntryResult) : Bool := !r.acked

/-! ## `src/shared/events/publisher.py` -/

/-- Whether the broker accepts the `xadd` append or raises
(connection failure / timeout), an input of the model since it is
decided by the external broker. -/
inductive BrokerOutcome where
  | ok : BrokerOutcome
  | err : BrokerOutcome
deriving Repr, DecidableEq

/-- Keeps the last `n` elements of a list, as a stream trimmed with
`maxlen=n` retains only its most recent entries. -/
def takeLast (n : Nat) (xs : List α) : List α := xs.drop (xs.length - n)

/-- Redis `XADD stream {event: json.dumps(event)} MAXLEN 10000`:
appends one entry and trims to the last `maxlen` entries.  Entries are
modelled by the event dict they carry. -/
def xadd (stream : List Json) (event : Json) (maxlen : Nat) : List Json :=
  takeLast maxlen (stream ++ [event])

/-- Observable result of one `RedisStreamPublisher.publish` call:
the returned boolean, the stream contents afterwards, and how many
`xadd` calls were made against the broker. -/
structure PublishResult where
  verdict : Bool
  stream : List Json
  xaddCalls : Nat
deriving Repr, BEq

/-- Method `RedisStreamPublisher.publish(stream_name, event)` acting on
the named stream’s contents: one `xadd` with `maxlen=10000` inside
`try`; any exception is caught, logged, and `False` is returned (lines
44-58); on success `True` is returned. -/
def publish (outcome : BrokerOutcome) (stream : List Json) (event : Json) :
    PublishResult :=
  match outcome with
  | .ok => ⟨true, xadd stream event 10000, 1⟩
  | .err => ⟨false, stream, 1⟩

/-! ## Idempotency guard

Both services define the same pair of functions over their
`ProcessedEvent` table (`event_id` is `unique=True`):
`src/services/notification-service/notifications/event_handlers.py`
lines 22-32 and `src/services/order-service/orders/event_handlers.py`
lines 32-42. -/

/-- Row of the `processed_events` table (`processed_at` is a
server-clock default and not read by any embedded code path, so it is
omitted). -/
structure ProcessedRecord where
  event_id : String
  event_type : String
deriving Repr, DecidableEq

/-- Function `is_event_processed`:
`ProcessedEvent.objects.filter(event_id=event_id).exists()`. -/
def is_event_processed (store : List ProcessedRecord) (event_id : String) :
    Bool :=
  store.any fun r => r.event_id == event_id

/-- Function `mark_event_processed`:
`ProcessedEvent.objects.get_or_create(event_id=event_id,
defaults=...)` with the `event_type` default — inserts a row when none with
this `event_id` exists, otherwise leaves the table unchanged and does
not raise. -/
def mark_event_processed (store : List ProcessedRecord)
    (event_id event_type : String) : List ProcessedRecord :=
  if is_event_processed store event_id then store
  else store ++ [⟨event_id, event_type⟩]

/-- Number of `processed_events` rows carrying a given `event_id`. -/
def countRecords (store : List ProcessedRecord) (event_id : String) : Nat :=
  (store.filter fun r => r.event_id == event_id).length

/-! ## `src/services/notification-service/notifications/event_handlers.py` -/

/-- Row of the notification service’s `notifications` table as created
by `handle_order_status_updated` (the random `notification_id` and the
server-clock `created_at`/`sent_at` are omitted). -/
structure NotificationRow where
  recipient : String
  message : String
  status : String
  related_order_id : String
deriving Repr, DecidableEq

/-- State the notification service’s handler acts on: its
`processed_events` and `notifications` tables plus the emails actually
delivered by `send_mail` (as `(order_id, recipient)` pairs). -/
structure NotifState where
  processed : List ProcessedRecord
  notifications : List NotificationRow
  emailsSent : List (String × String)
deriving Repr, DecidableEq

/-- Function `send_order_status_email(order_id, status, user_email)`:
builds the message and calls `send_mail`; returns `True` when the send
succeeds and `False` when `send_mail` raises (caught at line 74).
Whether SMTP delivery succeeds is the external input `emailOk`. -/
def send_order_status_email (emailOk : Bool) (order_id user_email : String)
    (sent : List (String × String)) : Bool × List (String × String) :=
  if emailOk then (true, sent ++ [(order_id, user_email)]) else (false, sent)

/-- Helper for the body of `handle_order_status_updated` after the
duplicate check: sends the email, records the `Notification` row, marks
the event processed (unconditionally, lines 124-126), and returns the
email verdict (line 134). -/
def notifHandleBody (emailOk : Bool) (event : OrderStatusUpdatedEvent)
    (st : NotifState) : Bool × NotifState :=
  let r := send_order_status_email emailOk event.order_id event.user_email
    st.emailsSent
  let row : NotificationRow :=
    ⟨event.user_email, "Order status updated to " ++ event.status,
     if r.1 then "sent" else "failed", event.order_id⟩
  let processed := mark_event_processed st.processed event.event_id
    orderStatusUpdatedTag
  (r.1, ⟨processed, st.notifications ++ [row], r.2⟩)

/-- Function `handle_order_status_updated(event_data)` of the
notification service (lines 79-139): decodes the event (a decode raise
is caught by the outer `except` at line 136 → `False`), skips
already-processed events returning `True` (lines 92-95), otherwise
runs `notifHandleBody`. -/
def handle_order_status_updated (emailOk : Bool) (event_data : Json)
    (st : NotifState) : Bool × NotifState :=
  match OrderStatusUpdatedEvent.from_dict event_data with
  | none => (false, st)
  | some event =>
    if is_event_processed st.processed event.event_id then (true, st)
    else notifHandleBody emailOk event st

/-- Routing outcome: the returned verdict together with how many
registered handlers were invoked. -/
structure RouteOutcome where
  verdict : Bool
  handlersCalled : Nat
deriving Repr, DecidableEq

/-- Python comparison `event.get("event_type") == tag` as both
`route_event` functions perform it: the fetched value equals the string
tag iff it is that string; a missing key (`None`) or a non-string value
never equals a string in Python. -/
def eventTypeIs (event : Json) (tag : String) : Bool :=
  match event.get "event_type" with
  | some (.str t) => t == tag
  | _ => false

/-- Function `route_event(event)` of the notification service (lines
142-159), parametric in the behaviour of its one registered handler:
`event.get("event_type")` equal to `"OrderStatusUpdated"` dispatches to
`handle_order_status_updated`; anything else is ignored with `True`
(lines 156-159). -/
def notif_route_event (handleStatusUpdated : Json → Bool) (event : Json) :
    RouteOutcome :=
  if eventTypeIs event orderStatusUpdatedTag then
    ⟨handleStatusUpdated event, 1⟩
  else ⟨true, 0⟩

/-- Function `route_event(event)` of the order service (lines 168-187),
parametric in its two registered handlers: `"OrderCreated"` dispatches
to `handle_order_created`, `"OrderStatusUpdated"` to
`handle_order_status_updated`, and any other `event_type` returns
`False` (lines 185-187). -/
def order_route_event (handleCreated handleStatusUpdated : Json → Bool)
    (event : Json) : RouteOutcome :=
  if eventTypeIs event orderCreatedTag then
    ⟨handleCreated event, 1⟩
  else if eventTypeIs event orderStatusUpdatedTag then
    ⟨handleStatusUpdated event, 1⟩
  else ⟨false, 0⟩

/-! ## `src/services/order-service/orders/event_handlers.py` -/

/-- Row of the order service’s `orders` table as touched by
`handle_order_created` (auto timestamps omitted). -/
structure OrderRow where
  order_id : String
  user_id : String
  status : String
  total_amount : Rat
  shipping_address : String
  user_email : String
deriving Repr, DecidableEq

/-- Row of the order service’s `order_items` table. -/
structure OrderItemRow where
  order_id : String
  product_id : String
  quantity : Int
  price : Rat
  name : String
deriving Repr, DecidableEq

/-- State the order service’s handlers act on: its `orders`,
`order_items` and `processed_events` tables, plus the contents of the
Redis stream named `settings.EVENT_STREAM_NAME` that `event_publisher`
appends to. -/
structure OrderServiceState where
  orders : List OrderRow
  orderItems : List OrderItemRow
  processed : List ProcessedRecord
  stream : List Json
deriving Repr

/-- Fresh values `handle_order_created` obtains from outside the
embedding: the `event_id` and `timestamp` defaults generated by the
`OrderStatusUpdatedEvent` constructor (`uuid4()` / `utcnow()`), and the
database’s `order.updated_at` auto-timestamp. -/
structure FreshIds where
  newEventId : String
  newTimestamp : String
  updatedAt : String
deriving Repr, DecidableEq

/-- Lines 78-85 of `handle_order_created`: one `OrderItem.objects.create`
per product (`name` is the product name or the empty string). -/
def orderItemRows (order_id : String) (products : List ProductItem) :
    List OrderItemRow :=
  products.map fun p => ⟨order_id, p.product_id, p.quantity, p.price, p.name.getD ""⟩

/-- Lines 92-99 of `handle_order_created`: the `OrderStatusUpdatedEvent`
built after the status change (status "processing",
previous status "pending", the constructor’s generated id/timestamp
and the row’s `updated_at` supplied by `fresh`). -/
def statusEventFor (fresh : FreshIds) (event : OrderCreatedEvent) :
    OrderStatusUpdatedEvent :=
  ⟨fresh.newEventId, fresh.newTimestamp, "1.0", event.order_id, "processing",
   "pending", fresh.updatedAt, event.user_email⟩

/-- Body of `handle_order_created` after the duplicate check (lines
64-116): creates the order row (created as "pending", then saved as
"processing"), creates the item rows, publishes the follow-on
`OrderStatusUpdatedEvent` (a failed publish is only logged, lines
106-110), marks the event processed, and returns `True`. -/
def orderCreatedBody (publishOutcome : BrokerOutcome) (fresh : FreshIds)
    (event : OrderCreatedEvent) (st : OrderServiceState) :
    Bool × OrderServiceState :=
  let order : OrderRow := ⟨event.order_id, event.user_id, "processing",
    event.total_amount, event.shipping_address, event.user_email⟩
  let items := orderItemRows event.order_id event.products
  let pr := publish publishOutcome st.stream (statusEventFor fresh event).to_dict
  let processed := mark_event_processed st.processed event.event_id
    orderCreatedTag
  (true, ⟨st.orders ++ [order], st.orderItems ++ items, processed, pr.stream⟩)

/-- Function `handle_order_created(event_data)` of the order service
(lines 45-120): decodes the event (a raise is caught by the outer
`except` at line 118 → `False`), skips already-processed events with
`True` (lines 59-62), otherwise runs `orderCreatedBody`. -/
def handle_order_created (publishOutcome : BrokerOutcome) (fresh : FreshIds)
    (event_data : Json) (st : OrderServiceState) : Bool × OrderServiceState :=
  match OrderCreatedEvent.from_dict event_data with
  | none => (false, st)
  | some event =>
    if is_event_processed st.processed event.event_id then (true, st)
    else orderCreatedBody publishOutcome fresh event st

/-! ## Helper lemmas: retry executor -/

theorem retryGo_zero (h : Nat → AttemptOutcome) (m a : Nat) :
    retryGo h m a 0 = ⟨false, 0, []⟩ := rfl

theorem retryGo_succ_ok (h : Nat → AttemptOutcome) (m a l : Nat)
    (hok : h a = .ok) : retryGo h m a (l + 1) = ⟨true, 1, []⟩ := by
  simp [retryGo, hok]

theorem retryGo_succ_failed_cont (h : Nat → AttemptOutcome) (m a l : Nat)
    (hf : h a = .failed) (hlt : a < m - 1) :
    retryGo h m a (l + 1) =
      ⟨(retryGo h m (a + 1) l).verdict, (retryGo h m (a + 1) l).attempts + 1,
       2 ^ a :: (retryGo h m (a + 1) l).waits⟩ := by
  simp [retryGo, hf, hlt]

theorem retryGo_succ_failed_last (h : Nat → AttemptOutcome) (m a l : Nat)
    (hf : h a = .failed) (hge : ¬ a < m - 1) :
    retryGo h m a (l + 1) = ⟨false, 1, []⟩ := by
  simp [retryGo, hf, hge]

theorem retryGo_succ_raised_cont (h : Nat → AttemptOutcome) (m a l : Nat)
    (hf : h a = .raised) (hlt : a < m - 1) :
    retryGo h m a (l + 1) =
      ⟨(retryGo h m (a + 1) l).verdict, (retryGo h m (a + 1) l).attempts + 1,
       2 ^ a :: (retryGo h m (a + 1) l).waits⟩ := by
  simp [retryGo, hf, hlt]

theorem retryGo_succ_raised_last (h : Nat → AttemptOutcome) (m a l : Nat)
    (hf : h a = .raised) (hge : ¬ a < m - 1) :
    retryGo h m a (l + 1) = ⟨false, 1, []⟩ := by
  simp [retryGo, hf, hge]

theorem retryGo_attempts_le (h : Nat → AttemptOutcome) (m : Nat) :
    ∀ l a, (retryGo h m a l).attempts ≤ l := by
  intro l
  induction l with
  | zero => intro a; simp [retryGo_zero]
  | succ l ih =>
    intro a
    cases hha : h a with
    | ok => simp [retryGo_succ_ok h m a l hha]
    | failed =>
      by_cases hlt : a < m - 1
      · rw [retryGo_succ_failed_cont h m a l hha hlt]
        have := ih (a + 1)
        simpa using Nat.succ_le_succ this
      · rw [retryGo_succ_failed_last h m a l hha hlt]
        simp
    | raised =>
      by_cases hlt : a < m - 1
      · rw [retryGo_succ_raised_cont h m a l hha hlt]
        have := ih (a + 1)
        simpa using Nat.succ_le_succ this
      · rw [retryGo_succ_raised_last h m a l hha hlt]
        simp

theorem retryGo_attempts_pos (h : Nat → AttemptOutcome) (m l a : Nat) :
    0 < (retryGo h m a (l + 1)).attempts := by
  cases hha : h a with
  | ok => simp [retryGo_succ_ok h m a l hha]
  | failed =>
    by_cases hlt : a < m - 1
    · rw [retryGo_succ_failed_cont h m a l hha hlt]; simp
    · rw [retryGo_succ_failed_last h m a l hha hlt]; simp
  | raised =>
    by_cases hlt : a < m - 1
    · rw [retryGo_succ_raised_cont h m a l hha hlt]; simp
    · rw [retryGo_succ_raised_last h m a l hha hlt]; simp

theorem retryGo_succ_notok_cont (h : Nat → AttemptOutcome) (m a l : Nat)
    (hf : h a ≠ .ok) (hlt : a < m - 1) :
    retryGo h m a (l + 1) =
      ⟨(retryGo h m (a + 1) l).verdict, (retryGo h m (a + 1) l).attempts + 1,
       2 ^ a :: (retryGo h m (a + 1) l).waits⟩ := by
  cases hha : h a with
  | ok => exact absurd hha hf
  | failed => exact retryGo_succ_failed_cont h m a l hha hlt
  | raised => exact retryGo_succ_raised_cont h m a l hha hlt

theorem retryGo_succ_notok_last (h : Nat → AttemptOutcome) (m a l : Nat)
    (hf : h a ≠ .ok) (hge : ¬ a < m - 1) :
    retryGo h m a (l + 1) = ⟨false, 1, []⟩ := by
  cases hha : h a with
  | ok => exact absurd hha hf
  | failed => exact retryGo_succ_failed_last h m a l hha hge
  | raised => exact retryGo_succ_raised_last h m a l hha hge

theorem retryGo_waits (h : Nat → AttemptOutcome) (m : Nat) :
    ∀ l a, m = a + l →
      (retryGo h m a l).waits =
        (List.range ((retryGo h m a l).attempts - 1)).map (fun k => 2 ^ (a + k)) := by
  intro l
  induction l with
  | zero => intro a _; simp [retryGo_zero]
  | succ l ih =>
    intro a hm
    by_cases hok : h a = .ok
    · simp [retryGo_succ_ok h m a l hok]
    · by_cases hlt : a < m - 1
      · rw [retryGo_succ_notok_cont h m a l hok hlt]
        obtain ⟨l', rfl⟩ : ∃ l', l = l' + 1 := ⟨l - 1, by omega⟩
        have hpos := retryGo_attempts_pos h m l' (a + 1)
        obtain ⟨r, hr⟩ : ∃ r, (retryGo h m (a + 1) (l' + 1)).attempts = r + 1 :=
          ⟨(retryGo h m (a + 1) (l' + 1)).attempts - 1, by omega⟩
        have hrest := ih (a + 1) (by omega)
        dsimp only
        rw [hrest, hr]
        have hfun : (fun k => (2 : Nat) ^ (a + 1 + k)) = fun k => 2 ^ (a + (k + 1)) :=
          funext fun k => by rw [Nat.add_assoc, Nat.add_comm 1 k]
        calc 2 ^ a :: (List.range (r + 1 - 1)).map (fun k => 2 ^ (a + 1 + k))
            = 2 ^ a :: (List.range r).map (fun k => 2 ^ (a + (k + 1))) := by
              rw [hfun]; norm_num
          _ = (List.range (r + 1)).map (fun k => 2 ^ (a + k)) := by
              rw [List.range_succ_eq_map, List.map_cons, List.map_map]
              simp [Function.comp_def]
      · rw [retryGo_succ_notok_last h m a l hok hlt]
        simp

theorem retryGo_first_ok (h : Nat → AttemptOutcome) (m : Nat) :
    ∀ l a, m = a + l → ∀ k, a ≤ k → k < m → h k = .ok →
      (∀ j, a ≤ j → j < k → h j ≠ .ok) →
      (retryGo h m a l).verdict = true ∧
        (retryGo h m a l).attempts = k - a + 1 := by
  intro l
  induction l with
  | zero => intro a hm k hak hkm _ _; omega
  | succ l ih =>
    intro a hm k hak hkm hok hmin
    rcases Nat.eq_or_lt_of_le hak with heq | hgt
    · subst heq
      rw [retryGo_succ_ok h m a l hok]
      simp
    · have hna : h a ≠ .ok := hmin a le_rfl hgt
      have hlt : a < m - 1 := by omega
      rw [retryGo_succ_notok_cont h m a l hna hlt]
      have hrest := ih (a + 1) (by omega) k (by omega) hkm hok
        (fun j hj hjk => hmin j (by omega) hjk)
      refine ⟨hrest.1, ?_⟩
      dsimp only
      rw [hrest.2]
      omega

theorem retryGo_all_fail (h : Nat → AttemptOutcome) (m : Nat) :
    ∀ l a, m = a + l → (∀ k, a ≤ k → k < m → h k ≠ .ok) →
      (retryGo h m a l).verdict = false ∧ (retryGo h m a l).attempts = l := by
  intro l
  induction l with
  | zero => intro a _ _; simp [retryGo_zero]
  | succ l ih =>
    intro a hm hfail
    have hna : h a ≠ .ok := hfail a le_rfl (by omega)
    by_cases hlt : a < m - 1
    · rw [retryGo_succ_notok_cont h m a l hna hlt]
      have hrest := ih (a + 1) (by omega)
        (fun k hk hkm => hfail k (by omega) hkm)
      exact ⟨hrest.1, by dsimp only; rw [hrest.2]⟩
    · have hl : l = 0 := by omega
      subst hl
      rw [retryGo_succ_notok_last h m a 0 hna hlt]
      simp

theorem retryGo_suppressRaised (h : Nat → AttemptOutcome) (m : Nat) :
    ∀ l a, retryGo (suppressRaised h) m a l = retryGo h m a l := by
  intro l
  induction l with
  | zero => intro a; rfl
  | succ l ih =>
    intro a
    cases hha : h a with
    | ok =>
      rw [retryGo_succ_ok (suppressRaised h) m a l (by simp [suppressRaised, hha]),
        retryGo_succ_ok h m a l hha]
    | failed =>
      by_cases hlt : a < m - 1
      · rw [retryGo_succ_failed_cont (suppressRaised h) m a l
          (by simp [suppressRaised, hha]) hlt,
          retryGo_succ_failed_cont h m a l hha hlt, ih]
      · rw [retryGo_succ_failed_last (suppressRaised h) m a l
          (by simp [suppressRaised, hha]) hlt,
          retryGo_succ_failed_last h m a l hha hlt]
    | raised =>
      by_cases hlt : a < m - 1
      · rw [retryGo_succ_failed_cont (suppressRaised h) m a l
          (by simp [suppressRaised, hha]) hlt,
          retryGo_succ_raised_cont h m a l hha hlt, ih]
      · rw [retryGo_succ_failed_last (suppressRaised h) m a l
          (by simp [suppressRaised, hha]) hlt,
          retryGo_succ_raised_last h m a l hha hlt]

/-! ## Helper lemmas: envelope codec round trip -/

theorem productFromDict_productToDict (p : ProductItem) :
    productFromDict (productToDict p) = some p := by
  obtain ⟨pid, qty, price, name⟩ := p
  cases name <;> rfl

theorem mapOption_map_inverse (f : α → Option β) (g : β → α) (xs : List β)
    (H : ∀ x, f (g x) = some x) : mapOption f (xs.map g) = some xs := by
  induction xs with
  | nil => rfl
  | cons x xs ih => simp [mapOption, H x, ih]

theorem orderCreated_from_to (e : OrderCreatedEvent) :
    OrderCreatedEvent.from_dict e.to_dict = some e := by
  obtain ⟨eid, ts, ver, oid, uid, prods, total, addr, email⟩ := e
  rw [show OrderCreatedEvent.from_dict
      (OrderCreatedEvent.to_dict ⟨eid, ts, ver, oid, uid, prods, total, addr, email⟩) =
      (mapOption productFromDict (prods.map productToDict)).bind
        (fun ps => some ⟨eid, ts, ver, oid, uid, ps, total, addr, email⟩) from rfl]
  rw [mapOption_map_inverse productFromDict productToDict prods
    productFromDict_productToDict]
  rfl

theorem orderStatusUpdated_from_to (e : OrderStatusUpdatedEvent) :
    OrderStatusUpdatedEvent.from_dict e.to_dict = some e := by
  obtain ⟨eid, ts, ver, oid, status, prev, upd, email⟩ := e
  rfl

/-! ## Helper lemmas: idempotency guard and handlers -/

theorem is_event_processed_mark (s : List ProcessedRecord) (id t : String) :
    is_event_processed (mark_event_processed s id t) id = true := by
  unfold mark_event_processed
  by_cases hp : is_event_processed s id = true
  · rw [if_pos hp]; exact hp
  · rw [if_neg hp]
    unfold is_event_processed
    rw [List.any_append]
    have h1 : ([(⟨id, t⟩ : ProcessedRecord)].any fun r => r.event_id == id) = true := by
      simp
    rw [h1, Bool.or_true]

theorem mark_mark (s : List ProcessedRecord) (id t t' : String) :
    mark_event_processed (mark_event_processed s id t) id t'
      = mark_event_processed s id t := by
  conv_lhs => rw [mark_event_processed]
  simp [is_event_processed_mark]

theorem countRecords_eq_zero (s : List ProcessedRecord) (id : String)
    (hp : is_event_processed s id = false) : countRecords s id = 0 := by
  unfold countRecords
  rw [← List.countP_eq_length_filter, List.countP_eq_zero]
  intro r hr
  unfold is_event_processed at hp
  have := List.any_eq_false.mp hp r hr
  simpa using this

theorem countRecords_mark_absent (s : List ProcessedRecord) (id t : String)
    (hp : is_event_processed s id = false) :
    countRecords (mark_event_processed s id t) id = 1 := by
  unfold mark_event_processed
  rw [if_neg (by simp [hp])]
  unfold countRecords
  rw [List.filter_append]
  have h0 : s.filter (fun r => r.event_id == id) = [] := by
    have h1 := countRecords_eq_zero s id hp
    unfold countRecords at h1
    exact List.length_eq_zero.mp h1
  rw [h0]
  simp

theorem handle_osu_eq_body (b : Bool) (e : OrderStatusUpdatedEvent)
    (st : NotifState)
    (hnp : is_event_processed st.processed e.event_id = false) :
    handle_order_status_updated b e.to_dict st = notifHandleBody b e st := by
  unfold handle_order_status_updated
  rw [orderStatusUpdated_from_to]
  simp [hnp]

theorem handle_osu_skip (b : Bool) (e : OrderStatusUpdatedEvent)
    (st : NotifState)
    (hp : is_event_processed st.processed e.event_id = true) :
    handle_order_status_updated b e.to_dict st = (true, st) := by
  unfold handle_order_status_updated
  rw [orderStatusUpdated_from_to]
  simp [hp]

theorem notifHandleBody_processed (b : Bool) (e : OrderStatusUpdatedEvent)
    (st : NotifState) :
    is_event_processed (notifHandleBody b e st).2.processed e.event_id = true := by
  unfold notifHandleBody
  exact is_event_processed_mark _ _ _

theorem notifHandleBody_emails_ok (e : OrderStatusUpdatedEvent) (st : NotifState) :
    (notifHandleBody true e st).2.emailsSent
      = st.emailsSent ++ [(e.order_id, e.user_email)] := rfl

theorem handle_oc_eq_body (o : BrokerOutcome) (fresh : FreshIds)
    (e : OrderCreatedEvent) (st : OrderServiceState)
    (hnp : is_event_processed st.processed e.event_id = false) :
    handle_order_created o fresh e.to_dict st = orderCreatedBody o fresh e st := by
  unfold handle_order_created
  rw [orderCreated_from_to]
  simp [hnp]

theorem handle_oc_skip (o : BrokerOutcome) (fresh : FreshIds)
    (e : OrderCreatedEvent) (st : OrderServiceState)
    (hp : is_event_processed st.processed e.event_id = true) :
    handle_order_created o fresh e.to_dict st = (true, st) := by
  unfold handle_order_created
  rw [orderCreated_from_to]
  simp [hp]

theorem orderCreatedBody_processed (o : BrokerOutcome) (fresh : FreshIds)
    (e : OrderCreatedEvent) (st : OrderServiceState) :
    is_event_processed (orderCreatedBody o fresh e st).2.processed e.event_id
      = true := by
  unfold orderCreatedBody
  exact is_event_processed_mark _ _ _

theorem orderCreatedBody_err_stream (fresh : FreshIds) (e : OrderCreatedEvent)
    (st : OrderServiceState) :
    (orderCreatedBody .err fresh e st).2.stream = st.stream := rfl

theorem orderCreatedBody_verdict (o : BrokerOutcome) (fresh : FreshIds)
    (e : OrderCreatedEvent) (st : OrderServiceState) :
    (orderCreatedBody o fresh e st).1 = true := rfl

/-! ## Claims -/

/-- Claim C1 (amended).  For every stream entry whose stored payload
fails to decode (invalid JSON / missing `event` field / bad UTF-8), the
consumer loop never invokes the handler, does not acknowledge the
entry, and leaves it pending for redelivery (the `except` branch at
consumer.py lines 155-160 only logs).  An entry whose payload parses
but merely lacks `event_type` is not a decode failure: it is dispatched
to the handler like any decoded event. -/
theorem claim_C1 :
    (∀ handler, handleEntry none handler = ⟨false, false⟩)
    ∧ (∀ handler, entryRemainsPending (handleEntry none handler) = true)
    ∧ (∀ event handler, (handleEntry (some event) handler).handlerCalled = true) :=
  ⟨fun _ => rfl, fun _ => rfl, fun _ _ => rfl⟩

/-- Claim C1 counterexample.  At a concrete undecodable entry the
original claim’s "acknowledged exactly once (removed from pending)" is
false: the entry is not acknowledged at all. -/
theorem claim_C1_counterexample :
    ¬ ((handleEntry none fun _ _ => .ok).acked = true) := by decide

/-- Claim C3.  A successfully decoded entry is acknowledged exactly
when `_process_with_retry` returns success; when every one of the 3
attempts fails, the entry is not acknowledged and remains pending,
after exactly `max_attempts = 3` attempts. -/
theorem claim_C3 (event : Json) (handler : Json → Nat → AttemptOutcome) :
    ((handleEntry (some event) handler).acked
        = (processWithRetry (handler event) 3).verdict)
    ∧ ((∀ k, k < 3 → handler event k ≠ .ok) →
        (handleEntry (some event) handler).acked = false
        ∧ entryRemainsPending (handleEntry (some event) handler) = true
        ∧ (processWithRetry (handler event) 3).attempts = 3) := by
  refine ⟨rfl, fun hfail => ?_⟩
  have h := retryGo_all_fail (handler event) 3 3 0 rfl
    (fun k _ hk => hfail k hk)
  refine ⟨h.1, ?_, h.2⟩
  show (!(processWithRetry (handler event) 3).verdict) = true
  have hv : (processWithRetry (handler event) 3).verdict = false := h.1
  rw [hv]
  rfl

/-- Claim C3 witness: a handler failing on all attempts at a concrete
entry leaves it unacknowledged after 3 attempts. -/
theorem claim_C3_witness :
    (handleEntry (some (Json.obj [])) fun _ _ => .failed).acked = false
    ∧ (processWithRetry ((fun (_ : Json) (_ : Nat) => AttemptOutcome.failed)
        (Json.obj [])) 3).attempts = 3 := by
  have h := (claim_C3 (Json.obj []) fun _ _ => .failed).2 (by decide)
  exact ⟨h.1, h.2.2⟩

/-- Claim C4.  The retry executor performs at most `max_attempts`
attempts, stops at the first success, its waits are exactly
`2^0, 2^1, …` after every failing attempt except the final one (no
wait after the last attempt), and on total failure it performs
exactly `max_attempts` attempts and reports failure. -/
theorem claim_C4 (handler : Nat → AttemptOutcome) (m : Nat) (hm : 1 ≤ m) :
    ((processWithRetry handler m).attempts ≤ m)
    ∧ ((processWithRetry handler m).waits
        = (List.range ((processWithRetry handler m).attempts - 1)).map
            (fun k => 2 ^ k))
    ∧ (∀ k, k < m → handler k = .ok → (∀ j, j < k → handler j ≠ .ok) →
        (processWithRetry handler m).verdict = true
        ∧ (processWithRetry handler m).attempts = k + 1)
    ∧ ((∀ k, k < m → handler k ≠ .ok) →
        (processWithRetry handler m).verdict = false
        ∧ (processWithRetry handler m).attempts = m) := by
  unfold processWithRetry
  refine ⟨retryGo_attempts_le handler m m 0, ?_, ?_, ?_⟩
  · have h := retryGo_waits handler m m 0 (Nat.zero_add m).symm
    rw [h]
    simp only [Nat.zero_add]
  · intro k hk hok hmin
    have h := retryGo_first_ok handler m m 0 (Nat.zero_add m).symm k
      (Nat.zero_le k) hk hok (fun j _ hj => hmin j hj)
    exact ⟨h.1, by rw [h.2]; omega⟩
  · intro hfail
    exact retryGo_all_fail handler m m 0 (Nat.zero_add m).symm
      (fun k _ hk => hfail k hk)

/-- Claim C4 witness: with `max_attempts = 3` and failures on the first
two attempts, exactly 3 attempts occur, the verdict is success, and
the waits are 1 then 2 time units. -/
theorem claim_C4_witness :
    (processWithRetry (fun k => if k < 2 then .failed else .ok) 3).verdict = true
    ∧ (processWithRetry (fun k => if k < 2 then .failed else .ok) 3).attempts = 3
    ∧ (processWithRetry (fun k => if k < 2 then .failed else .ok) 3).waits
        = [1, 2] := by
  have h := claim_C4 (fun k => if k < 2 then .failed else .ok) 3 (by norm_num)
  obtain ⟨-, hw, hs, -⟩ := h
  have h3 := hs 2 (by norm_num) (by norm_num) (by decide)
  refine ⟨h3.1, h3.2, ?_⟩
  rw [hw, h3.2]
  rfl

/-- Claim C5.  For both envelopes of the event catalog, `from_dict` is
the exact inverse of `to_dict`: every field of the envelope, including
every product item, survives the round trip. -/
theorem claim_C5 :
    (∀ e : OrderCreatedEvent, OrderCreatedEvent.from_dict e.to_dict = some e)
    ∧ (∀ e : OrderStatusUpdatedEvent,
        OrderStatusUpdatedEvent.from_dict e.to_dict = some e) :=
  ⟨orderCreated_from_to, orderStatusUpdated_from_to⟩

/-- Claim C6.  An attempt that raises is treated by the retry executor
exactly like an attempt that returns false (identical verdict, attempt
count and backoff waits), and the executor always returns a boolean
verdict — a handler exception never escapes it. -/
theorem claim_C6 (handler : Nat → AttemptOutcome) (m : Nat) :
    processWithRetry (suppressRaised handler) m = processWithRetry handler m
    ∧ ((processWithRetry handler m).verdict = true
        ∨ (processWithRetry handler m).verdict = false) := by
  refine ⟨retryGo_suppressRaised handler m m 0, ?_⟩
  cases hv : (processWithRetry handler m).verdict
  · exact Or.inr rfl
  · exact Or.inl rfl

/-- Claim C2 (code bug evaluated).  At a concrete `OrderStatusUpdated`
event whose email send fails, the notification handler returns `False`
yet still records the event as processed (event_handlers.py lines
124-126 run unconditionally), so the redelivery of the same `event_id`
is skipped with `True` and the email is never re-attempted — contrary
to the spec’s mark-only-after-success rule. -/
theorem claim_C2 :
    let e : OrderStatusUpdatedEvent :=
      ⟨"evt-1", "2024-01-01T00:00:00", "1.0", "order-1", "processing",
       "pending", "2024-01-01T00:00:00", "user@example.com"⟩
    let r1 := handle_order_status_updated false e.to_dict ⟨[], [], []⟩
    r1.1 = false
    ∧ is_event_processed r1.2.processed "evt-1" = true
    ∧ r1.2.emailsSent = []
    ∧ handle_order_status_updated true e.to_dict r1.2 = (true, r1.2) := by
  refine ⟨rfl, rfl, rfl, rfl⟩

/-- Claim C7.  Marking an event processed twice leaves the store as
after one mark (the second `get_or_create` is a no-op and cannot
raise), one mark on an unseen id leaves exactly one record for it, and
a handler guarded by `is_processed` invoked twice with the same
`event_id` performs its side effect (the email) exactly once, the
second invocation returning success with no state change. -/
theorem claim_C7 (s : List ProcessedRecord) (id t t' : String) :
    (mark_event_processed (mark_event_processed s id t) id t'
        = mark_event_processed s id t)
    ∧ (is_event_processed s id = false →
        countRecords (mark_event_processed s id t) id = 1)
    ∧ (∀ (st : NotifState) (e : OrderStatusUpdatedEvent) (b : Bool),
        is_event_processed st.processed e.event_id = false →
        (handle_order_status_updated true e.to_dict st).2.emailsSent
            = st.emailsSent ++ [(e.order_id, e.user_email)]
        ∧ handle_order_status_updated b e.to_dict
              (handle_order_status_updated true e.to_dict st).2
            = (true, (handle_order_status_updated true e.to_dict st).2)) := by
  refine ⟨mark_mark s id t t', countRecords_mark_absent s id t, ?_⟩
  intro st e b hnp
  have h1 := handle_osu_eq_body true e st hnp
  constructor
  · rw [h1]
    exact notifHandleBody_emails_ok e st
  · rw [h1]
    exact handle_osu_skip b e _ (notifHandleBody_processed true e st)

/-- Claim C7 witness: two marks on an empty store leave one record,
and two deliveries of a concrete event send exactly one email. -/
theorem claim_C7_witness :
    countRecords
        (mark_event_processed (mark_event_processed [] "e1" "T") "e1" "T") "e1" = 1
    ∧ (handle_order_status_updated true
        (OrderStatusUpdatedEvent.to_dict
          ⟨"e1", "t", "1.0", "o1", "done", "pending", "t", "u"⟩)
        ⟨[], [], []⟩).2.emailsSent = [("o1", "u")] := by
  have h := claim_C7 [] "e1" "T" "T"
  constructor
  · rw [h.1]
    exact h.2.1 rfl
  · have h2 := (h.2.2 ⟨[], [], []⟩
      ⟨"e1", "t", "1.0", "o1", "done", "pending", "t", "u"⟩ true rfl).1
    simpa using h2

/-- Claim C8.  The notification service’s dispatcher returns success
without invoking any handler for an `OrderCreated` envelope (its only
registered type is `OrderStatusUpdated`), while the order service’s
dispatcher reports failure, also without invoking any handler, for an
`event_type` registered with neither handler. -/
theorem claim_C8 (hS hC hS2 : Json → Bool) (event event2 : Json) :
    (event.get "event_type" = some (Json.str orderCreatedTag) →
      notif_route_event hS event = ⟨true, 0⟩)
    ∧ (eventTypeIs event2 orderCreatedTag = false →
       eventTypeIs event2 orderStatusUpdatedTag = false →
      order_route_event hC hS2 event2 = ⟨false, 0⟩) := by
  constructor
  · intro h
    unfold notif_route_event eventTypeIs
    rw [h]
    rfl
  · intro h1 h2
    unfold order_route_event
    simp [h1, h2]

/-- Claim C8 witness: concrete envelopes exercising both dispatch
policies. -/
theorem claim_C8_witness :
    notif_route_event (fun _ => false)
        (Json.obj [("event_type", Json.str "OrderCreated")]) = ⟨true, 0⟩
    ∧ order_route_event (fun _ => true) (fun _ => true)
        (Json.obj [("event_type", Json.str "PaymentProcessed")]) = ⟨false, 0⟩ := by
  have h := claim_C8 (fun _ => false) (fun _ => true) (fun _ => true)
    (Json.obj [("event_type", Json.str "OrderCreated")])
    (Json.obj [("event_type", Json.str "PaymentProcessed")])
  exact ⟨h.1 rfl, h.2 rfl rfl⟩

/-- Claim C9.  `publish` makes exactly one `xadd` call (no internal
retry); when the broker append raises, the failure is returned as
`False` with the stream unchanged (no exception escapes the total
function); on success exactly one serialized entry is appended under
the configured `maxlen=10000` bound. -/
theorem claim_C9 (o : BrokerOutcome) (stream : List Json) (event : Json) :
    ((publish o stream event).xaddCalls = 1)
    ∧ (o = .err → publish o stream event = ⟨false, stream, 1⟩)
    ∧ (o = .ok → (publish o stream event).verdict = true
        ∧ (publish o stream event).stream = xadd stream event 10000) := by
  cases o with
  | ok =>
    refine ⟨rfl, ?_, ?_⟩
    · intro h
      exact absurd h (by decide)
    · intro _
      refine ⟨rfl, ?_⟩
      simp [publish]
  | err =>
    refine ⟨rfl, ?_, ?_⟩
    · intro _
      rfl
    · intro h
      exact absurd h (by decide)

/-- Claim C9 witness: both broker outcomes at a concrete stream. -/
theorem claim_C9_witness :
    publish .err [] (Json.obj []) = ⟨false, [], 1⟩
    ∧ (publish .ok [] (Json.obj [])).verdict = true := by
  have h1 := (claim_C9 .err [] (Json.obj [])).2.1 rfl
  have h2 := ((claim_C9 .ok [] (Json.obj [])).2.2 rfl).1
  exact ⟨h1, h2⟩

/-- Claim C10.  When publishing the follow-on `OrderStatusUpdated`
event fails, `handle_order_created` still returns success and marks
the `OrderCreated` event processed with nothing appended to the
stream; any redelivery is then skipped unchanged, so the follow-on
event is never published — the publish failure is swallowed. -/
theorem claim_C10 (o : BrokerOutcome) (fresh fresh' : FreshIds)
    (e : OrderCreatedEvent) (st : OrderServiceState)
    (hnp : is_event_processed st.processed e.event_id = false) :
    (handle_order_created .err fresh e.to_dict st).1 = true
    ∧ is_event_processed
        (handle_order_created .err fresh e.to_dict st).2.processed e.event_id
        = true
    ∧ (handle_order_created .err fresh e.to_dict st).2.stream = st.stream
    ∧ handle_order_created o fresh' e.to_dict
          (handle_order_created .err fresh e.to_dict st).2
        = (true, (handle_order_created .err fresh e.to_dict st).2) := by
  have h1 := handle_oc_eq_body .err fresh e st hnp
  refine ⟨?_, ?_, ?_, ?_⟩
  · rw [h1]
    exact orderCreatedBody_verdict .err fresh e st
  · rw [h1]
    exact orderCreatedBody_processed .err fresh e st
  · rw [h1]
    exact orderCreatedBody_err_stream fresh e st
  · rw [h1]
    exact handle_oc_skip o fresh' e _ (orderCreatedBody_processed .err fresh e st)

/-- Claim C10 witness: a concrete order-created delivery with a failed
follow-on publish succeeds and leaves the stream empty. -/
theorem claim_C10_witness :
    (handle_order_created .err ⟨"ev2", "t2", "t3"⟩
      (OrderCreatedEvent.to_dict ⟨"ev1", "t1", "1.0", "ord1", "u1", [], 0,
        "addr", "mail"⟩) ⟨[], [], [], []⟩).1 = true
    ∧ (handle_order_created .err ⟨"ev2", "t2", "t3"⟩
      (OrderCreatedEvent.to_dict ⟨"ev1", "t1", "1.0", "ord1", "u1", [], 0,
        "addr", "mail"⟩) ⟨[], [], [], []⟩).2.stream = [] := by
  have h := claim_C10 .ok ⟨"ev2", "t2", "t3"⟩ ⟨"a", "b", "c"⟩
    ⟨"ev1", "t1", "1.0", "ord1", "u1", [], 0, "addr", "mail"⟩
    ⟨[], [], [], []⟩ rfl
  exact ⟨h.1, h.2.2.1⟩
